import Mathlib

/-!
Shallow embedding of `src/main.py` (victorblacksoul/ai-chat): a FastAPI glue
service relaying questions to a hosted assistant API, with a synchronous
endpoint (`POST /api/ask`, `ask_assistant`) and a streaming endpoint
(`POST /api/ask-stream`, `ask_assistant_stream` with the generator
`stream_assistant_response`).

The external "Assistant Conversation Service" is modelled as an environment
value recording the outcome of each service call: creation calls may fault
(`Except String _`, the `String` being the Python exception text `str(e)`),
while run-status retrieval and message listing are modelled as total
functions of the call index (their fault channels are not needed by any
claim).  Time is abstracted as in the spec: one time unit per 1-second
sleep, retrievals instantaneous, so the wall-clock elapsed at loop
iteration `k` is `k` time units.
-/

namespace AiChat

/-- Run status strings of the upstream API that `main.py` branches on.
`requires_action` stands for "any other status", which the code's
`if`/`elif` chain silently skips. -/
inductive RunStatus
  | queued
  | in_progress
  | completed
  | failed
  | cancelled
  | expired
  | requires_action
deriving DecidableEq, Repr

/-- String form of a status, as interpolated into Python f-strings. -/
def statusStr : RunStatus → String
  | .queued => "queued"
  | .in_progress => "in_progress"
  | .completed => "completed"
  | .failed => "failed"
  | .cancelled => "cancelled"
  | .expired => "expired"
  | .requires_action => "requires_action"

/-- Statuses on which both poll loops stop: `completed` plus the
`["failed", "cancelled", "expired"]` list of `main.py`. -/
def isTerminalStatus : RunStatus → Bool
  | .completed => true
  | .failed => true
  | .cancelled => true
  | .expired => true
  | _ => false

/-- One content block of a Message; `text` stands for the source's
`block.text.value`. -/
structure ContentBlock where
  text : String
deriving DecidableEq, Repr

/-- One Message of a Conversation as returned by `messages.list`:
a role string and a list of content blocks. -/
structure Message where
  role : String
  content : List ContentBlock
deriving DecidableEq, Repr

/-- Request body of both endpoints (`UserQuery` in `main.py`). -/
structure UserQuery where
  question : String
  thread_id : Option String
deriving DecidableEq, Repr

/-- Success body of `POST /api/ask` (`AssistantResponse` in `main.py`). -/
structure AssistantResponse where
  response : String
  thread_id : String
  run_id : String
deriving DecidableEq, Repr

/-- Python exception values that can be raised inside the endpoints' `try`
blocks: `fastapi.HTTPException(status_code, detail)` or any other exception
carrying its message. -/
inductive Exc
  | http (status : Nat) (detail : String)
  | other (msg : String)
deriving DecidableEq, Repr

/-- Python `str(e)`: Starlette's `HTTPException.__str__` is
`f"{status_code}: {detail}"`; other exceptions render their message. -/
def excStr : Exc → String
  | .http s d => toString s ++ ": " ++ d
  | .other m => m

/-- Resolution of `thread_id = query.thread_id; if not thread_id: thread =
client.beta.threads.create(); thread_id = thread.id` (both endpoints).
Python string truthiness makes `""` fall into the create branch exactly
like `None`.  The second component records whether `threads.create` was
invoked. -/
def resolveThreadId (createThread : Except String String) :
    Option String → Except String String × Bool
  | none => (createThread, true)
  | some s => if s = "" then (createThread, true) else (Except.ok s, false)

/-- Outcome of the synchronous wait loop, carrying the number of
`runs.retrieve` calls performed. -/
inductive SyncPollResult
  | timedOut (retrievals : Nat)
  | runFailed (st : RunStatus) (retrievals : Nat)
  | completedOk (retrievals : Nat)
deriving DecidableEq, Repr

/-- The `while True` wait loop of `ask_assistant`, lines 177-194.  At
iteration `k` the elapsed wall-clock time is `k` time units (one 1-unit
sleep per iteration), so the guard `time.time() - start_time > timeout`
with `timeout = 60` first fires at `k = 61`; the first argument counts the
iterations left before that happens, starting from `61`.  The timeout
check precedes the retrieval, so a timed-out loop performs no further
`runs.retrieve` call. -/
def pollLoop (status : Nat → RunStatus) : Nat → Nat → SyncPollResult
  | 0, k => .timedOut k
  | b + 1, k =>
    match status k with
    | .completed => .completedOk (k + 1)
    | .failed => .runFailed .failed (k + 1)
    | .cancelled => .runFailed .cancelled (k + 1)
    | .expired => .runFailed .expired (k + 1)
    | _ => pollLoop status b (k + 1)

/-- Entry point of the wait loop: iteration 0, 61 iterations before the
`elapsed > 60` guard fires. -/
def waitForRun (status : Nat → RunStatus) : SyncPollResult :=
  pollLoop status 61 0

/-- Environment for one `POST /api/ask` request: outcomes of the service
calls the handler makes.  `status k` is the result of the `k`-th
`runs.retrieve`; `messages` is the single post-completion
`messages.list` result. -/
structure SyncEnv where
  createThread : Except String String
  createMessage : Except String Unit
  createRun : Except String String
  status : Nat → RunStatus
  messages : List Message

/-- The scan `for message in messages.data: if message.role == "assistant":
... break`, shared by both endpoints. -/
def findAssistant (msgs : List Message) : Option Message :=
  msgs.find? (fun m => m.role == "assistant")

/-- Body of the `try` block of `ask_assistant` (lines 152-214), with
exception propagation written out: a faulting service call raises its
exception (`Exc.other`), a failed check raises an `HTTPException`
(`Exc.http`).  The final `message.content[0].text.value` raises
`IndexError("list index out of range")` when the first assistant message's
content list is empty. -/
def askAssistantBody (env : SyncEnv) (q : UserQuery) : Except Exc AssistantResponse :=
  match (resolveThreadId env.createThread q.thread_id).1 with
  | .error e => .error (.other e)
  | .ok tid =>
    match env.createMessage with
    | .error e => .error (.other e)
    | .ok _ =>
      match env.createRun with
      | .error e => .error (.other e)
      | .ok rid =>
        match waitForRun env.status with
        | .timedOut _ => .error (.http 504 "Assistant processing timed out")
        | .runFailed st _ =>
            .error (.http 500 ("Assistant run failed with status: " ++ statusStr st))
        | .completedOk _ =>
            if env.messages.isEmpty then
              .error (.http 500 "No response from assistant")
            else
              match findAssistant env.messages with
              | none => .error (.http 500 "No assistant response found")
              | some m =>
                  match m.content with
                  | [] => .error (.other "list index out of range")
                  | b :: _ => .ok { response := b.text, thread_id := tid, run_id := rid }

/-- The full `POST /api/ask` handler: the body's `try` block wrapped in
`except Exception as e: raise HTTPException(status_code=500,
detail=str(e))` (lines 216-217).  `fastapi.HTTPException` subclasses
`Exception`, so HTTP exceptions raised inside the `try` block are caught
and re-raised as status 500 with detail `str(e)`.  The error value is the
(status, detail) pair of the exception that finally escapes.  The second
component records whether `threads.create` was invoked. -/
def ask_assistant (env : SyncEnv) (q : UserQuery) :
    Except (Nat × String) AssistantResponse × Bool :=
  ((match askAssistantBody env q with
    | .ok a => .ok a
    | .error e => .error (500, excStr e) : Except (Nat × String) AssistantResponse),
   (resolveThreadId env.createThread q.thread_id).2)

/-- One unit of the streaming protocol, as the JSON objects of
`stream_assistant_response` are shaped: `update` carries only content,
`done` carries content plus the thread and run handles, `error` carries
only content. -/
inductive Event
  | update (content : String)
  | done (content thread_id run_id : String)
  | error (content : String)
deriving DecidableEq, Repr

/-- Whether an event is an `update`. -/
def isUpdate : Event → Bool
  | .update _ => true
  | _ => false

/-- Whether an event is terminal (`done` or `error`). -/
def isTerminalEvent : Event → Bool
  | .update _ => false
  | .done _ _ _ => true
  | .error _ => true

/-- Environment for one `POST /api/ask-stream` request.  `status k` is the
result of the `runs.retrieve` call of loop iteration `k`; `messagesAt k`
is the `messages.list` result of iteration `k` (the generator lists at
most once per iteration, on the `completed` and `in_progress` branches). -/
structure StreamEnv where
  createThread : Except String String
  createMessage : Except String Unit
  createRun : Except String String
  status : Nat → RunStatus
  messagesAt : Nat → List Message

/-- The `completed` branch of the generator (lines 61-85): list the
messages, take the first assistant one; extract `content[0].text.value`
if the content list is non-empty, otherwise emit the fixed placeholder;
with no assistant message at all, emit an `error` event. -/
def completedEvent (tid rid : String) (msgs : List Message) : Event :=
  match findAssistant msgs with
  | some m =>
      match m.content with
      | b :: _ => .done b.text tid rid
      | [] => .done "No content in assistant response" tid rid
  | none => .error "No assistant response found"

/-- The `in_progress` branch of the generator (lines 92-108): list the
messages, look only at the first assistant one (the loop `break`s after
it); emit an `update` with its first block's text when the content list is
non-empty, nothing otherwise. -/
def inProgressEvents (msgs : List Message) : List Event :=
  match findAssistant msgs with
  | some m =>
      match m.content with
      | b :: _ => [.update b.text]
      | [] => []
  | none => []

/-- One iteration of the generator's `while True` body at iteration `k`:
the events yielded and whether the loop `break`s. -/
def stepEvents (env : StreamEnv) (tid rid : String) (k : Nat) : List Event × Bool :=
  match env.status k with
  | .completed => ([completedEvent tid rid (env.messagesAt k)], true)
  | .failed => ([.error ("Run failed with status: " ++ statusStr .failed)], true)
  | .cancelled => ([.error ("Run failed with status: " ++ statusStr .cancelled)], true)
  | .expired => ([.error ("Run failed with status: " ++ statusStr .expired)], true)
  | .in_progress => (inProgressEvents (env.messagesAt k), false)
  | .queued => ([], false)
  | .requires_action => ([], false)

/-- The generator `stream_assistant_response` (lines 50-111), observed for
`fuel` loop iterations starting at iteration `k`.  The loop has no
timeout, so only a fuel bound makes the observation finite: the result is
the list of events yielded during those iterations and whether the
generator terminated within them (`false` means the loop was still
running when the fuel ran out). -/
def stream_assistant_response (env : StreamEnv) (tid rid : String) :
    Nat → Nat → List Event × Bool
  | _, 0 => ([], false)
  | k, fuel + 1 =>
    if (stepEvents env tid rid k).2 then
      ((stepEvents env tid rid k).1, true)
    else
      ((stepEvents env tid rid k).1 ++
         (stream_assistant_response env tid rid (k + 1) fuel).1,
       (stream_assistant_response env tid rid (k + 1) fuel).2)

/-- The three setup calls of `ask_assistant_stream` (lines 117-134):
thread resolution, user-message append, run creation; the first fault
aborts the sequence and is caught by the handler's `except` branch. -/
def streamSetup (env : StreamEnv) (q : UserQuery) : Except String (String × String) :=
  match (resolveThreadId env.createThread q.thread_id).1 with
  | .error e => .error e
  | .ok tid =>
    match env.createMessage with
    | .error e => .error e
    | .ok _ =>
      match env.createRun with
      | .error e => .error e
      | .ok rid => .ok (tid, rid)

/-- The HTTP response of `POST /api/ask-stream`: always status 200 with an
event-stream media type; the body is the generator's output, observed at
any fuel bound. -/
structure StreamResponse where
  httpStatus : Nat
  mediaType : String
  body : Nat → List Event × Bool

/-- The full `POST /api/ask-stream` handler (lines 115-146): on a setup
fault the `except` branch returns the degenerate one-event error stream
`iter([json.dumps({"type": "error", "content": str(e)})])`, still as a 200
event-stream response.  The second component records whether
`threads.create` was invoked. -/
def ask_assistant_stream (env : StreamEnv) (q : UserQuery) : StreamResponse × Bool :=
  ((match streamSetup env q with
    | .ok (tid, rid) =>
        { httpStatus := 200
          mediaType := "text/event-stream"
          body := fun fuel => stream_assistant_response env tid rid 0 fuel }
    | .error e =>
        { httpStatus := 200
          mediaType := "text/event-stream"
          body := fun _ => ([Event.error e], true) } : StreamResponse),
   (resolveThreadId env.createThread q.thread_id).2)

/-! Concrete environments used to instantiate the claims. -/

/-- Sync environment: everything succeeds, the run is `completed` on the
first poll, one assistant message answering "4". -/
def envHappy : SyncEnv :=
  { createThread := .ok "t_new"
    createMessage := .ok ()
    createRun := .ok "r_1"
    status := fun _ => .completed
    messages := [{ role := "assistant", content := [{ text := "4" }] }] }

/-- Sync environment: the run never leaves `queued`, so the wait loop
times out. -/
def envTimeout : SyncEnv :=
  { createThread := .ok "t_new"
    createMessage := .ok ()
    createRun := .ok "r_1"
    status := fun _ => .queued
    messages := [] }

/-- Sync environment: the run completes at once, but the first assistant
message in the listing has an empty content list while a later assistant
message carries "4". -/
def envFirstEmpty : SyncEnv :=
  { createThread := .ok "t_new"
    createMessage := .ok ()
    createRun := .ok "r_1"
    status := fun _ => .completed
    messages := [{ role := "assistant", content := [] },
                 { role := "assistant", content := [{ text := "4" }] }] }

/-- Stream environment: everything succeeds, the run is `completed` on the
first poll, one assistant message answering "4". -/
def streamHappy : StreamEnv :=
  { createThread := .ok "t_new"
    createMessage := .ok ()
    createRun := .ok "r_1"
    status := fun _ => .completed
    messagesAt := fun _ => [{ role := "assistant", content := [{ text := "4" }] }] }

/-- Stream environment: the run completes, but the completion listing
contains only the user message — no assistant-role message. -/
def streamNoAsst : StreamEnv :=
  { createThread := .ok "t_new"
    createMessage := .ok ()
    createRun := .ok "r_1"
    status := fun _ => .completed
    messagesAt := fun _ => [{ role := "user", content := [{ text := "2+2?" }] }] }

/-- Stream environment: the run completes and the first assistant message
of the listing has an empty content list. -/
def streamEmptyContent : StreamEnv :=
  { createThread := .ok "t_new"
    createMessage := .ok ()
    createRun := .ok "r_1"
    status := fun _ => .completed
    messagesAt := fun _ => [{ role := "assistant", content := [] }] }

/-- Stream environment: `threads.create` itself faults. -/
def streamFault : StreamEnv :=
  { createThread := .error "boom"
    createMessage := .ok ()
    createRun := .ok "r_1"
    status := fun _ => .queued
    messagesAt := fun _ => [] }

/-! Shared lemmas about the generator's step and loop. -/

/-- An `update` event is not terminal. -/
lemma update_not_terminal {e : Event} (h : isUpdate e = true) :
    isTerminalEvent e = false := by
  cases e <;> simp [isUpdate, isTerminalEvent] at h ⊢

/-- The event of the `completed` branch is terminal. -/
lemma completedEvent_terminal (tid rid : String) (msgs : List Message) :
    isTerminalEvent (completedEvent tid rid msgs) = true := by
  cases hf : findAssistant msgs with
  | none => simp [completedEvent, hf, isTerminalEvent]
  | some m =>
    cases hc : m.content with
    | nil => simp [completedEvent, hf, hc, isTerminalEvent]
    | cons b bs => simp [completedEvent, hf, hc, isTerminalEvent]

/-- A `done` event of the `completed` branch carries the loop's handles. -/
lemma completedEvent_done {tid rid : String} {msgs : List Message}
    {c t r : String} (h : completedEvent tid rid msgs = Event.done c t r) :
    t = tid ∧ r = rid := by
  cases hf : findAssistant msgs with
  | none => simp [completedEvent, hf] at h
  | some m =>
    cases hc : m.content with
    | nil =>
      simp only [completedEvent, hf, hc] at h
      simp at h
      exact ⟨h.2.1.symm, h.2.2.symm⟩
    | cons b bs =>
      simp only [completedEvent, hf, hc] at h
      simp at h
      exact ⟨h.2.1.symm, h.2.2.symm⟩

/-- Events of the `in_progress` branch are updates. -/
lemma inProgressEvents_updates {msgs : List Message} {e : Event}
    (h : e ∈ inProgressEvents msgs) : isUpdate e = true := by
  cases hf : findAssistant msgs with
  | none => simp [inProgressEvents, hf] at h
  | some m =>
    cases hc : m.content with
    | nil => simp [inProgressEvents, hf, hc] at h
    | cons b bs =>
      simp [inProgressEvents, hf, hc] at h
      rw [h]; rfl

/-- The loop `break`s exactly on the terminal statuses. -/
lemma stepEvents_snd (env : StreamEnv) (tid rid : String) (k : Nat) :
    (stepEvents env tid rid k).2 = isTerminalStatus (env.status k) := by
  cases hs : env.status k <;> simp [stepEvents, hs, isTerminalStatus]

/-- A breaking iteration yields exactly one event, and it is terminal. -/
lemma stepEvents_true {env : StreamEnv} {tid rid : String} {k : Nat}
    (h : (stepEvents env tid rid k).2 = true) :
    ∃ t, (stepEvents env tid rid k).1 = [t] ∧ isTerminalEvent t = true := by
  cases hs : env.status k with
  | completed =>
    exact ⟨completedEvent tid rid (env.messagesAt k), by simp [stepEvents, hs],
      completedEvent_terminal tid rid (env.messagesAt k)⟩
  | failed =>
    exact ⟨Event.error ("Run failed with status: " ++ statusStr .failed),
      by simp [stepEvents, hs], rfl⟩
  | cancelled =>
    exact ⟨Event.error ("Run failed with status: " ++ statusStr .cancelled),
      by simp [stepEvents, hs], rfl⟩
  | expired =>
    exact ⟨Event.error ("Run failed with status: " ++ statusStr .expired),
      by simp [stepEvents, hs], rfl⟩
  | in_progress => simp [stepEvents, hs] at h
  | queued => simp [stepEvents, hs] at h
  | requires_action => simp [stepEvents, hs] at h

/-- A non-breaking iteration yields only `update` events. -/
lemma stepEvents_false {env : StreamEnv} {tid rid : String} {k : Nat}
    (h : (stepEvents env tid rid k).2 = false) :
    ∀ e ∈ (stepEvents env tid rid k).1, isUpdate e = true := by
  intro e he
  cases hs : env.status k with
  | in_progress =>
    simp only [stepEvents, hs] at he
    exact inProgressEvents_updates he
  | queued => simp [stepEvents, hs] at he
  | requires_action => simp [stepEvents, hs] at he
  | completed => simp [stepEvents, hs] at h
  | failed => simp [stepEvents, hs] at h
  | cancelled => simp [stepEvents, hs] at h
  | expired => simp [stepEvents, hs] at h

/-- Any `done` event yielded by an iteration carries the loop's handles. -/
lemma stepEvents_done {env : StreamEnv} {tid rid : String} {k : Nat} {e : Event}
    (h : e ∈ (stepEvents env tid rid k).1) {c t r : String}
    (hd : e = Event.done c t r) : t = tid ∧ r = rid := by
  cases hs : env.status k with
  | completed =>
    simp [stepEvents, hs] at h
    rw [h] at hd
    exact completedEvent_done hd
  | in_progress =>
    simp only [stepEvents, hs] at h
    have hu := inProgressEvents_updates h
    rw [hd] at hu
    simp [isUpdate] at hu
  | failed => simp [stepEvents, hs] at h; rw [h] at hd; simp at hd
  | cancelled => simp [stepEvents, hs] at h; rw [h] at hd; simp at hd
  | expired => simp [stepEvents, hs] at h; rw [h] at hd; simp at hd
  | queued => simp [stepEvents, hs] at h
  | requires_action => simp [stepEvents, hs] at h

/-- A terminated observation of the generator is zero or more updates
followed by exactly one terminal event. -/
lemma stream_shape (env : StreamEnv) (tid rid : String) :
    ∀ fuel k, (stream_assistant_response env tid rid k fuel).2 = true →
      ∃ pre term, (stream_assistant_response env tid rid k fuel).1 = pre ++ [term]
        ∧ (∀ e ∈ pre, isUpdate e = true) ∧ isTerminalEvent term = true := by
  intro fuel
  induction fuel with
  | zero => intro k h; simp [stream_assistant_response] at h
  | succ n ih =>
    intro k h
    cases hstep : (stepEvents env tid rid k).2 with
    | true =>
      obtain ⟨t, h1, h2⟩ := stepEvents_true hstep
      refine ⟨[], t, ?_, by simp, h2⟩
      simp only [stream_assistant_response]
      rw [if_pos hstep]
      simpa using h1
    | false =>
      simp only [stream_assistant_response] at h ⊢
      rw [if_neg (by simp [hstep])] at h ⊢
      obtain ⟨pre, term, heq, hupd, hterm⟩ := ih (k + 1) h
      refine ⟨(stepEvents env tid rid k).1 ++ pre, term, ?_, ?_, hterm⟩
      · show (stepEvents env tid rid k).1
            ++ (stream_assistant_response env tid rid (k + 1) n).1 = _
        rw [heq, List.append_assoc]
      · intro e he
        rcases List.mem_append.mp he with h1 | h2
        · exact stepEvents_false hstep e h1
        · exact hupd e h2

/-- The generator terminates within `fuel` iterations from iteration `k`
exactly when one of those iterations fetches a terminal status. -/
lemma stream_term_iff (env : StreamEnv) (tid rid : String) :
    ∀ fuel k, (stream_assistant_response env tid rid k fuel).2 = true ↔
      ∃ j, j < fuel ∧ isTerminalStatus (env.status (k + j)) = true := by
  intro fuel
  induction fuel with
  | zero => intro k; simp [stream_assistant_response]
  | succ n ih =>
    intro k
    cases hstep : (stepEvents env tid rid k).2 with
    | true =>
      simp only [stream_assistant_response]
      rw [if_pos hstep]
      have hterm : isTerminalStatus (env.status k) = true := by
        rw [← stepEvents_snd env tid rid k]; exact hstep
      constructor
      · intro _
        exact ⟨0, Nat.succ_pos n, by simpa using hterm⟩
      · intro _; rfl
    | false =>
      simp only [stream_assistant_response]
      rw [if_neg (by simp [hstep])]
      have hterm : isTerminalStatus (env.status k) = false := by
        rw [← stepEvents_snd env tid rid k]; exact hstep
      constructor
      · intro h
        obtain ⟨j, hj, hj2⟩ := (ih (k + 1)).mp h
        refine ⟨j + 1, by omega, ?_⟩
        have he : k + (j + 1) = k + 1 + j := by omega
        rw [he]; exact hj2
      · rintro ⟨j, hj, hj2⟩
        cases j with
        | zero =>
          simp only [Nat.add_zero] at hj2
          rw [hj2] at hterm; cases hterm
        | succ j' =>
          apply (ih (k + 1)).mpr
          refine ⟨j', by omega, ?_⟩
          have he : k + 1 + j' = k + (j' + 1) := by omega
          rw [he]; exact hj2

/-- If the first terminal status is fetched at iteration `j` within the
observation window, the generator's output is a prefix of updates followed
by exactly the events of iteration `j`, and the generator terminates. -/
lemma stream_reach (env : StreamEnv) (tid rid : String) :
    ∀ fuel k j, k ≤ j → j < k + fuel →
      (∀ i, k ≤ i → i < j → isTerminalStatus (env.status i) = false) →
      isTerminalStatus (env.status j) = true →
      ∃ pre, stream_assistant_response env tid rid k fuel
          = (pre ++ (stepEvents env tid rid j).1, true)
        ∧ ∀ e ∈ pre, isUpdate e = true := by
  intro fuel
  induction fuel with
  | zero => intro k j h1 h2 _ _; omega
  | succ n ih =>
    intro k j hkj hlt hpre hterm
    by_cases hk : k = j
    · subst hk
      have hstep : (stepEvents env tid rid k).2 = true := by
        rw [stepEvents_snd]; exact hterm
      refine ⟨[], ?_, by simp⟩
      simp only [stream_assistant_response]
      rw [if_pos hstep]
      simp
    · have hklt : k < j := lt_of_le_of_ne hkj hk
      have h0 : isTerminalStatus (env.status k) = false := hpre k le_rfl hklt
      have hstep : (stepEvents env tid rid k).2 = false := by
        rw [stepEvents_snd]; exact h0
      obtain ⟨pre, heq, hupd⟩ :=
        ih (k + 1) j (by omega) (by omega) (fun i hi1 hi2 => hpre i (by omega) hi2) hterm
      refine ⟨(stepEvents env tid rid k).1 ++ pre, ?_, ?_⟩
      · simp only [stream_assistant_response]
        rw [if_neg (by simp [hstep]), heq]
        simp [List.append_assoc]
      · intro e he
        rcases List.mem_append.mp he with h1 | h2
        · exact stepEvents_false hstep e h1
        · exact hupd e h2

/-- Every `done` event in the generator's output carries the handles the
generator was started with. -/
lemma stream_done_handles (env : StreamEnv) (tid rid : String) :
    ∀ fuel k e, e ∈ (stream_assistant_response env tid rid k fuel).1 →
      ∀ c t r, e = Event.done c t r → t = tid ∧ r = rid := by
  intro fuel
  induction fuel with
  | zero => intro k e he; simp [stream_assistant_response] at he
  | succ n ih =>
    intro k e he c t r hd
    simp only [stream_assistant_response] at he
    cases hstep : (stepEvents env tid rid k).2 with
    | true =>
      rw [if_pos hstep] at he
      exact stepEvents_done he hd
    | false =>
      rw [if_neg (by simp [hstep])] at he
      rcases List.mem_append.mp he with h1 | h2
      · exact stepEvents_done h1 hd
      · exact ih (k + 1) e h2 c t r hd

/-! Shared lemmas about the synchronous wait loop and handler. -/

/-- If every status fetched during the countdown is non-terminal, the wait
loop times out having performed exactly the retrievals of iterations
`k, ..., k + b - 1`. -/
lemma pollLoop_timeout (status : Nat → RunStatus) :
    ∀ b k, (∀ j, k ≤ j → j < k + b → isTerminalStatus (status j) = false) →
      pollLoop status b k = .timedOut (k + b) := by
  intro b
  induction b with
  | zero => intro k _; simp [pollLoop]
  | succ n ih =>
    intro k h
    have h0 : isTerminalStatus (status k) = false := h k le_rfl (by omega)
    have hrec : pollLoop status (n + 1) k = pollLoop status n (k + 1) := by
      cases hs : status k <;> simp [isTerminalStatus, hs] at h0 ⊢ <;>
        simp [pollLoop, hs]
    rw [hrec, ih (k + 1) (fun j hj1 hj2 => h j (by omega) (by omega))]
    congr 1
    omega

/-- A successful synchronous response is built from the resolved thread
handle and the created run handle. -/
lemma askAssistantBody_ok {env : SyncEnv} {q : UserQuery} {a : AssistantResponse}
    (h : askAssistantBody env q = .ok a) :
    (resolveThreadId env.createThread q.thread_id).1 = .ok a.thread_id
      ∧ env.createRun = .ok a.run_id := by
  unfold askAssistantBody at h
  cases hx : (resolveThreadId env.createThread q.thread_id).1 with
  | error e => rw [hx] at h; simp at h
  | ok tid =>
    rw [hx] at h
    cases hy : env.createMessage with
    | error e => rw [hy] at h; simp at h
    | ok u =>
      rw [hy] at h
      cases hz : env.createRun with
      | error e => rw [hz] at h; simp at h
      | ok rid =>
        rw [hz] at h
        cases hw : waitForRun env.status with
        | timedOut nr => rw [hw] at h; simp at h
        | runFailed st nr => rw [hw] at h; simp at h
        | completedOk nr =>
          rw [hw] at h
          cases hne : env.messages.isEmpty with
          | true => rw [hne] at h; simp at h
          | false =>
            rw [hne] at h
            simp only [Bool.false_eq_true, if_false] at h
            cases hf : findAssistant env.messages with
            | none => simp only [hf] at h; simp at h
            | some m =>
              cases hc : m.content with
              | nil => simp only [hf, hc] at h; simp at h
              | cons b bs =>
                simp only [hf, hc] at h
                simp at h
                subst h
                exact ⟨rfl, rfl⟩

/-- A successful sync result carries the resolved thread handle and the
created run handle. -/
lemma ask_ok_handles {env : SyncEnv} {q : UserQuery} {a : AssistantResponse}
    (h : (ask_assistant env q).1 = .ok a) :
    (resolveThreadId env.createThread q.thread_id).1 = .ok a.thread_id
      ∧ env.createRun = .ok a.run_id := by
  unfold ask_assistant at h
  cases hb : askAssistantBody env q with
  | error e => rw [hb] at h; simp at h
  | ok a' =>
    rw [hb] at h
    simp at h
    rw [← h]
    exact askAssistantBody_ok hb

/-- A successful stream setup yields the resolved thread handle and the
created run handle. -/
lemma streamSetup_ok {env : StreamEnv} {q : UserQuery} {tid rid : String}
    (h : streamSetup env q = .ok (tid, rid)) :
    (resolveThreadId env.createThread q.thread_id).1 = .ok tid
      ∧ env.createRun = .ok rid := by
  unfold streamSetup at h
  cases hx : (resolveThreadId env.createThread q.thread_id).1 with
  | error e => rw [hx] at h; simp at h
  | ok tid' =>
    rw [hx] at h
    cases hy : env.createMessage with
    | error e => rw [hy] at h; simp at h
    | ok u =>
      rw [hy] at h
      cases hz : env.createRun with
      | error e => rw [hz] at h; simp at h
      | ok rid' =>
        rw [hz] at h
        simp at h
        obtain ⟨h1, h2⟩ := h
        subst h1
        subst h2
        exact ⟨rfl, rfl⟩

/-! Claim theorems. -/

/-- C1, counterexample: with the Run `completed` on the first poll and a
completion listing holding only a user message (no assistant-role
Message), the generator's terminal Event is an `error` Event with content
"No assistant response found" — not a `done` Event with a placeholder, as
the claim states. -/
theorem C1_counterexample :
    streamNoAsst.status 0 = RunStatus.completed
      ∧ findAssistant (streamNoAsst.messagesAt 0) = none
      ∧ stream_assistant_response streamNoAsst "t_new" "r_1" 0 1
          = ([Event.error "No assistant response found"], true) :=
  ⟨rfl, rfl, rfl⟩

/-- C1, amended: in streaming mode, for every request whose Run reaches
`completed` and whose completion Message listing contains no
assistant-role Message, the terminal Event of the stream is an `error`
Event with content "No assistant response found" (the fixed `done`
placeholder is reserved for an assistant Message whose content list is
empty, see C10). -/
theorem C1_no_assistant_is_error (env : StreamEnv) (tid rid : String)
    (fuel j : Nat) (hfuel : j < fuel)
    (hpre : ∀ i, i < j → isTerminalStatus (env.status i) = false)
    (hj : env.status j = RunStatus.completed)
    (hnone : findAssistant (env.messagesAt j) = none) :
    (stream_assistant_response env tid rid 0 fuel).2 = true
      ∧ (stream_assistant_response env tid rid 0 fuel).1.getLast?
          = some (Event.error "No assistant response found")
      ∧ ∀ e ∈ (stream_assistant_response env tid rid 0 fuel).1.dropLast,
          isUpdate e = true := by
  obtain ⟨pre, heq, hupd⟩ :=
    stream_reach env tid rid fuel 0 j (Nat.zero_le j) (by omega)
      (fun i _ hi => hpre i hi) (by rw [hj]; rfl)
  have hstep : (stepEvents env tid rid j).1
      = [Event.error "No assistant response found"] := by
    simp [stepEvents, hj, completedEvent, hnone]
  rw [hstep] at heq
  refine ⟨by rw [heq], ?_, ?_⟩
  · rw [heq]
    exact List.getLast?_concat pre
  · rw [heq]
    show ∀ e ∈ (pre ++ [Event.error "No assistant response found"]).dropLast,
      isUpdate e = true
    rw [List.dropLast_concat]
    exact hupd

/-- C1, witness for the amended theorem: the concrete no-assistant stream
ends in the `error` Event. -/
theorem C1_no_assistant_is_error_witness :
    (stream_assistant_response streamNoAsst "t_new" "r_1" 0 1).1.getLast?
      = some (Event.error "No assistant response found") :=
  (C1_no_assistant_is_error streamNoAsst "t_new" "r_1" 1 0 (by omega)
    (fun i hi => absurd hi (Nat.not_lt_zero i)) rfl rfl).2.1

/-- C2: the claim says a sync-mode timeout is ultimately surfaced as HTTP
504.  In the code, the `HTTPException(504, ...)` raised by the timeout
check is caught by the handler's blanket `except Exception` (HTTPException
subclasses Exception) and re-raised as status 500 with detail `str(e)`:
on an environment where no terminal status is observed in 61 polls, the
status that actually escapes is 500, the intended 504 surviving only
inside the detail string. -/
theorem C2_timeout_returns_500 :
    (ask_assistant envTimeout { question := "q", thread_id := none }).1
      = Except.error (500, "504: Assistant processing timed out") := rfl

/-- C3: in streaming mode, whenever the response body's event sequence
terminates, it contains exactly one terminal Event (`done` or `error`) and
every event before the last one is an `update` — so the terminal Event is
last and nothing follows it. -/
theorem C3_one_terminal_event (env : StreamEnv) (q : UserQuery) (fuel : Nat)
    (h : ((ask_assistant_stream env q).1.body fuel).2 = true) :
    ((ask_assistant_stream env q).1.body fuel).1.countP
        (fun e => isTerminalEvent e) = 1
      ∧ ∀ e ∈ ((ask_assistant_stream env q).1.body fuel).1.dropLast,
          isUpdate e = true := by
  cases hset : streamSetup env q with
  | error e =>
    simp only [ask_assistant_stream, hset] at h ⊢
    constructor
    · simp [List.countP_cons, isTerminalEvent]
    · simp
  | ok p =>
    obtain ⟨tid, rid⟩ := p
    simp only [ask_assistant_stream, hset] at h ⊢
    obtain ⟨pre, term, heq, hupd, hterm⟩ := stream_shape env tid rid fuel 0 h
    rw [heq]
    constructor
    · rw [List.countP_append]
      have hpre0 : pre.countP (fun e => isTerminalEvent e) = 0 := by
        rw [List.countP_eq_zero]
        intro a ha
        simp [update_not_terminal (hupd a ha)]
      simp [hpre0, List.countP_cons, hterm]
    · rw [List.dropLast_concat]
      exact hupd

/-- C3, witness: the happy-path stream's single event is its one terminal
event. -/
theorem C3_one_terminal_event_witness :
    ((ask_assistant_stream streamHappy
        { question := "2+2?", thread_id := none }).1.body 1).1.countP
      (fun e => isTerminalEvent e) = 1 :=
  (C3_one_terminal_event streamHappy
    { question := "2+2?", thread_id := none } 1 rfl).1

/-- C4, counterexample: the run completes within the timeout and the
listing does contain an assistant-role Message with a non-empty content
list (the second one), yet the handler returns no response at all: the
first assistant Message scanned has an empty content list, so
`message.content[0]` raises IndexError and the request fails with HTTP
500 ("list index out of range") instead of returning that text. -/
theorem C4_counterexample :
    waitForRun envFirstEmpty.status = SyncPollResult.completedOk 1
      ∧ (envFirstEmpty.messages.any
          fun m => m.role == "assistant" && !m.content.isEmpty) = true
      ∧ (ask_assistant envFirstEmpty { question := "2+2?", thread_id := none }).1
          = Except.error (500, "list index out of range") :=
  ⟨rfl, rfl, rfl⟩

/-- C4, amended: for every sync-mode request whose setup calls succeed,
whose Run reaches `completed` within the timeout, and whose Message
listing's FIRST assistant-role Message has a non-empty content list, the
returned response text is that Message's first content block's text, and
the response carries the Conversation handle and Run handle used. -/
theorem C4_first_assistant_response (env : SyncEnv) (q : UserQuery)
    (tid rid : String) (n : Nat) (m : Message) (b : ContentBlock)
    (bs : List ContentBlock)
    (h1 : (resolveThreadId env.createThread q.thread_id).1 = Except.ok tid)
    (h2 : env.createMessage = Except.ok ())
    (h3 : env.createRun = Except.ok rid)
    (h4 : waitForRun env.status = SyncPollResult.completedOk n)
    (h5 : findAssistant env.messages = some m)
    (h6 : m.content = b :: bs) :
    (ask_assistant env q).1
      = Except.ok { response := b.text, thread_id := tid, run_id := rid } := by
  have hne : env.messages.isEmpty = false := by
    cases hm : env.messages with
    | nil => rw [hm] at h5; simp [findAssistant] at h5
    | cons x xs => simp [hm]
  simp only [ask_assistant, askAssistantBody, h1, h2, h3, h4, h5, h6, hne,
    Bool.false_eq_true, if_false]

/-- C4, witness for the amended theorem: on the happy-path environment the
response is the assistant's "4" with the handles used. -/
theorem C4_first_assistant_response_witness :
    (ask_assistant envHappy { question := "2+2?", thread_id := none }).1
      = Except.ok { response := "4", thread_id := "t_new", run_id := "r_1" } :=
  C4_first_assistant_response envHappy { question := "2+2?", thread_id := none }
    "t_new" "r_1" 1 { role := "assistant", content := [{ text := "4" }] }
    { text := "4" } [] rfl rfl rfl rfl rfl rfl

/-- C5: for every valid question carrying an existing (non-empty)
conversation handle, neither endpoint invokes the Conversation-create
call, the sync result echoes the supplied handle unchanged, and every
`done` Event of the stream carries the supplied handle unchanged. -/
theorem C5_existing_handle_frame (env : SyncEnv) (envS : StreamEnv)
    (q : UserQuery) (s : String) (hq : q.thread_id = some s) (hs : s ≠ "") :
    (ask_assistant env q).2 = false
      ∧ (ask_assistant_stream envS q).2 = false
      ∧ (∀ r, (ask_assistant env q).1 = Except.ok r → r.thread_id = s)
      ∧ ∀ fuel e, e ∈ ((ask_assistant_stream envS q).1.body fuel).1 →
          ∀ c t rr, e = Event.done c t rr → t = s := by
  have hres : ∀ c, resolveThreadId c q.thread_id = (Except.ok s, false) := by
    intro c; rw [hq]; simp [resolveThreadId, hs]
  refine ⟨?_, ?_, ?_, ?_⟩
  · show (resolveThreadId env.createThread q.thread_id).2 = false
    rw [hres]
  · show (resolveThreadId envS.createThread q.thread_id).2 = false
    rw [hres]
  · intro r hr
    obtain ⟨h1, _⟩ := ask_ok_handles hr
    rw [hres] at h1
    exact (Except.ok.inj h1).symm
  · intro fuel e he c t rr hd
    cases hset : streamSetup envS q with
    | error e2 =>
      simp only [ask_assistant_stream, hset] at he
      simp at he
      rw [he] at hd
      simp at hd
    | ok p =>
      obtain ⟨tid, rid⟩ := p
      simp only [ask_assistant_stream, hset] at he
      obtain ⟨ht, _⟩ := streamSetup_ok hset
      rw [hres] at ht
      obtain ⟨h1, _⟩ := stream_done_handles envS tid rid fuel 0 e he c t rr hd
      rw [h1]
      exact (Except.ok.inj ht).symm

/-- C5, witness: with an existing handle "t_0", the sync endpoint performs
no Conversation-create call. -/
theorem C5_existing_handle_frame_witness :
    (ask_assistant envHappy { question := "2+2?", thread_id := some "t_0" }).2
      = false :=
  (C5_existing_handle_frame envHappy streamHappy
    { question := "2+2?", thread_id := some "t_0" } "t_0" rfl (by decide)).1

/-- C6: in sync mode, if every status fetched while the elapsed time is
still within the 60-unit budget (iterations 0..60) is non-terminal, the
wait loop fails with the timeout outcome after exactly 61 retrievals: the
timeout check precedes each poll, so no further `runs.retrieve` happens
once the timeout is detected. -/
theorem C6_sync_timeout (status : Nat → RunStatus)
    (h : ∀ j, j ≤ 60 → isTerminalStatus (status j) = false) :
    waitForRun status = SyncPollResult.timedOut 61 := by
  have hp := pollLoop_timeout status 61 0 (fun j _ hj2 => h j (by omega))
  simpa [waitForRun] using hp

/-- C6, witness: a run that never leaves `queued` times out after 61
retrievals. -/
theorem C6_sync_timeout_witness :
    waitForRun (fun _ => RunStatus.queued) = SyncPollResult.timedOut 61 :=
  C6_sync_timeout (fun _ => RunStatus.queued) (fun _ _ => rfl)

/-- C7: the streaming poll loop terminates within an observation window
exactly when one of the statuses fetched in that window is terminal
(`completed`, `failed`, `cancelled` or `expired`); in particular, for a
status sequence that never reaches a terminal status, no observation
window however large sees the generator terminate — there is no timeout
or iteration cap. -/
theorem C7_stream_no_timeout (env : StreamEnv) (tid rid : String)
    (k fuel : Nat) :
    (stream_assistant_response env tid rid k fuel).2 = true ↔
      ∃ j, j < fuel ∧ isTerminalStatus (env.status (k + j)) = true :=
  stream_term_iff env tid rid fuel k

/-- C7, witness: the happy-path stream terminates in its first iteration
because `completed` is fetched there. -/
theorem C7_stream_no_timeout_witness :
    (stream_assistant_response streamHappy "t_new" "r_1" 0 1).2 = true :=
  (C7_stream_no_timeout streamHappy "t_new" "r_1" 0 1).mpr
    ⟨0, Nat.zero_lt_one, rfl⟩

/-- C8: a fault during the streaming endpoint's setup steps (conversation
creation, message append or run creation) yields an HTTP 200 event-stream
response whose body is the degenerate stream of exactly one `error` Event
carrying the fault description — not an HTTP error status. -/
theorem C8_setup_fault_degenerate (env : StreamEnv) (q : UserQuery)
    (e : String) (h : streamSetup env q = Except.error e) :
    (ask_assistant_stream env q).1.httpStatus = 200
      ∧ (ask_assistant_stream env q).1.mediaType = "text/event-stream"
      ∧ ∀ fuel, (ask_assistant_stream env q).1.body fuel
          = ([Event.error e], true) := by
  refine ⟨?_, ?_, ?_⟩ <;> simp [ask_assistant_stream, h]

/-- C8, witness: a faulting `threads.create` produces the one-error-event
body. -/
theorem C8_setup_fault_degenerate_witness :
    (ask_assistant_stream streamFault
        { question := "hi", thread_id := none }).1.body 1
      = ([Event.error "boom"], true) :=
  (C8_setup_fault_degenerate streamFault
    { question := "hi", thread_id := none } "boom" rfl).2.2 1

/-- C9: at both endpoints a supplied `thread_id` equal to `""` behaves
exactly like an absent one (Python truthiness): the handlers' results
coincide with the `None` case, the Conversation-create call is performed,
and — when that call returns a fresh handle — the fresh handle (not the
empty string) is what the sync result and the stream's `done` Events
carry. -/
theorem C9_blank_handle_creates (env : SyncEnv) (envS : StreamEnv)
    (qq h : String) :
    ask_assistant env { question := qq, thread_id := some "" }
        = ask_assistant env { question := qq, thread_id := none }
      ∧ ask_assistant_stream envS { question := qq, thread_id := some "" }
          = ask_assistant_stream envS { question := qq, thread_id := none }
      ∧ (ask_assistant env { question := qq, thread_id := some "" }).2 = true
      ∧ (ask_assistant_stream envS { question := qq, thread_id := some "" }).2 = true
      ∧ (env.createThread = Except.ok h →
          ∀ r, (ask_assistant env
              { question := qq, thread_id := some "" }).1 = Except.ok r →
            r.thread_id = h)
      ∧ (envS.createThread = Except.ok h →
          ∀ fuel e, e ∈ ((ask_assistant_stream envS
              { question := qq, thread_id := some "" }).1.body fuel).1 →
            ∀ c t rr, e = Event.done c t rr → t = h) := by
  refine ⟨rfl, rfl, rfl, rfl, ?_, ?_⟩
  · intro hct r hr
    obtain ⟨h1, _⟩ := ask_ok_handles hr
    have hres : (resolveThreadId env.createThread
        ({ question := qq, thread_id := some "" } : UserQuery).thread_id).1
          = Except.ok h := by
      show (resolveThreadId env.createThread (some "")).1 = Except.ok h
      rw [hct]
      simp [resolveThreadId]
    rw [hres] at h1
    exact (Except.ok.inj h1).symm
  · intro hct fuel e he c t rr hd
    cases hset : streamSetup envS { question := qq, thread_id := some "" } with
    | error e2 =>
      simp only [ask_assistant_stream, hset] at he
      simp at he
      rw [he] at hd
      simp at hd
    | ok p =>
      obtain ⟨tid, rid⟩ := p
      simp only [ask_assistant_stream, hset] at he
      obtain ⟨ht, _⟩ := streamSetup_ok hset
      have hres : (resolveThreadId envS.createThread
          ({ question := qq, thread_id := some "" } : UserQuery).thread_id).1
            = Except.ok h := by
        show (resolveThreadId envS.createThread (some "")).1 = Except.ok h
        rw [hct]
        simp [resolveThreadId]
      rw [hres] at ht
      obtain ⟨h1, _⟩ := stream_done_handles envS tid rid fuel 0 e he c t rr hd
      rw [h1]
      exact (Except.ok.inj ht).symm

/-- C9, witness: with `thread_id = ""` on the happy-path environment the
Conversation-create call is performed. -/
theorem C9_blank_handle_creates_witness :
    (ask_assistant envHappy { question := "2+2?", thread_id := some "" }).2
      = true :=
  (C9_blank_handle_creates envHappy streamHappy "2+2?" "t_new").2.2.1

/-- C10: in streaming mode, when the Run completes and the completion
listing's first assistant-role Message has an empty content list, the
terminal Event is a `done` Event with the exact text "No content in
assistant response", carrying the Conversation and Run handles — not an
`error` Event. -/
theorem C10_empty_content_placeholder (env : StreamEnv) (tid rid : String)
    (fuel j : Nat) (m : Message) (hfuel : j < fuel)
    (hpre : ∀ i, i < j → isTerminalStatus (env.status i) = false)
    (hj : env.status j = RunStatus.completed)
    (hm : findAssistant (env.messagesAt j) = some m)
    (hc : m.content = []) :
    (stream_assistant_response env tid rid 0 fuel).2 = true
      ∧ (stream_assistant_response env tid rid 0 fuel).1.getLast?
          = some (Event.done "No content in assistant response" tid rid)
      ∧ ∀ e ∈ (stream_assistant_response env tid rid 0 fuel).1.dropLast,
          isUpdate e = true := by
  obtain ⟨pre, heq, hupd⟩ :=
    stream_reach env tid rid fuel 0 j (Nat.zero_le j) (by omega)
      (fun i _ hi => hpre i hi) (by rw [hj]; rfl)
  have hstep : (stepEvents env tid rid j).1
      = [Event.done "No content in assistant response" tid rid] := by
    simp [stepEvents, hj, completedEvent, hm, hc]
  rw [hstep] at heq
  refine ⟨by rw [heq], ?_, ?_⟩
  · rw [heq]
    exact List.getLast?_concat pre
  · rw [heq]
    show ∀ e ∈ (pre ++ [Event.done "No content in assistant response" tid rid]).dropLast,
      isUpdate e = true
    rw [List.dropLast_concat]
    exact hupd

/-- C10, witness: the concrete empty-content stream ends in the `done`
placeholder carrying the handles. -/
theorem C10_empty_content_placeholder_witness :
    (stream_assistant_response streamEmptyContent "t_new" "r_1" 0 1).1.getLast?
      = some (Event.done "No content in assistant response" "t_new" "r_1") :=
  (C10_empty_content_placeholder streamEmptyContent "t_new" "r_1" 1 0
    { role := "assistant", content := [] } (by omega)
    (fun i hi => absurd hi (Nat.not_lt_zero i)) rfl rfl rfl).2.1

end AiChat
